import Mathlib

/-!
Shallow embedding of the gameplay-simulation core of `rust-space-shooter`
(src/main.rs, src/combat.rs, src/plugins/enemy_wave_plugin.rs,
src/plugins/powerups.rs), together with proofs about the claims of its
natural-language specification.

Modelling conventions:
* `u32` fields (health, damage, wave counters) become `Int` or `Nat`; where
  saturation matters, health is an `Int` carrying the u32 invariant `0 ≤ health`
  so that the floor-at-zero of `checked_sub(..).unwrap_or(0)` is visible.
* `f32` scalars (timers, velocities, probabilities) become `Rat`.
* `Vec3` positions are pass-through data for every claim considered here, so a
  position is an abstract `Nat` token.
* The rapier collision context is an oracle `Nat → Nat → Bool` over entity ids,
  frozen for the tick, exactly as `Res<RapierContext>` is inside one system run.
* Random draws (`rng.gen`, `rng.gen_range`) come from an injected stream
  `Nat → Rat` consumed left to right; `gen_range lo hi` maps a unit draw `u`
  to `lo + (hi - lo) * u`.
* Bevy `Commands` are deferred: despawns and spawns issued during a system are
  collected in output lists and do not affect the queries of the running system,
  mirroring command-buffer application at the end of the frame.
-/

namespace Shooter

/-- Damageable component from src/combat.rs: health (u32) and faction flag. -/
structure Damageable where
  health : Int
  is_player : Bool
deriving DecidableEq, Repr

/-- Bullet component from src/combat.rs. -/
structure Bullet where
  is_player_bullet : Bool
  up_direction : Bool
  velocity : Rat
  damage : Int
deriving DecidableEq, Repr

/-- EntityDeath component from src/combat.rs (position is an abstract token). -/
structure EntityDeath where
  position : Nat
  is_player : Bool
deriving DecidableEq, Repr

/-- ParticleHitEffect component from src/combat.rs. -/
structure ParticleHitEffect where
  position : Nat
  is_large : Bool
deriving DecidableEq, Repr

/-- CameraShakeEvent from src/camera.rs. -/
structure CameraShakeEvent where
  intensity : Rat
deriving DecidableEq, Repr

/-- Rust `health.checked_sub(damage).unwrap_or(0)` on u32: the checked
subtraction underflows exactly when `d > h`, and `unwrap_or(0)` floors the
result at zero. -/
def checkedSubOrZero (h d : Int) : Int :=
  if d > h then 0 else h - d

/-- Deferred commands and events accumulated by one run of
`check_bullet_damage` (src/main.rs, lines 322-368), in emission order. -/
structure PairEffects where
  bulletDespawns : List Nat
  entityDespawns : List Nat
  deaths : List EntityDeath
  shakes : List CameraShakeEvent
  hits : List ParticleHitEffect
deriving DecidableEq, Repr

/-- Empty accumulator for `PairEffects`. -/
def PairEffects.empty : PairEffects := ⟨[], [], [], [], []⟩

/-- Concatenation of two effect records, preserving emission order. -/
def PairEffects.append (a b : PairEffects) : PairEffects :=
  ⟨a.bulletDespawns ++ b.bulletDespawns, a.entityDespawns ++ b.entityDespawns,
   a.deaths ++ b.deaths, a.shakes ++ b.shakes, a.hits ++ b.hits⟩

/-- Body of the inner bullet loop of `check_bullet_damage` (src/main.rs,
lines 335-365) for one `(damageable, bullet)` pair. The state `st` carries the
current damageable component (mutated through `Mut`) and the effects emitted so
far. Note the source decrements health (line 339) before the faction check
(line 344), so the same-faction branch still returns the decremented health. -/
def processPair (inter : Nat → Nat → Bool) (did pos : Nat)
    (st : Damageable × PairEffects) (b : Nat × Bullet) : Damageable × PairEffects :=
  if inter did b.1 then
    let health := checkedSubOrZero st.1.health b.2.damage
    let d : Damageable := ⟨health, st.1.is_player⟩
    if d.is_player != b.2.is_player_bullet then
      if health = 0 then
        ⟨d, ⟨st.2.bulletDespawns ++ [b.1], st.2.entityDespawns ++ [did],
             st.2.deaths ++ [⟨pos, d.is_player⟩], st.2.shakes ++ [⟨1⟩],
             st.2.hits ++ [⟨pos, true⟩]⟩⟩
      else
        ⟨d, ⟨st.2.bulletDespawns ++ [b.1], st.2.entityDespawns,
             st.2.deaths, st.2.shakes ++ [⟨1/2⟩],
             st.2.hits ++ [⟨pos, false⟩]⟩⟩
    else
      ⟨d, st.2⟩
  else
    st

/-- One iteration of the outer damageable loop of `check_bullet_damage`:
fold the whole (snapshot) bullet query over one damageable. -/
def damageOne (inter : Nat → Nat → Bool) (bullets : List (Nat × Bullet))
    (x : Nat × Damageable × Nat) : (Nat × Damageable × Nat) × PairEffects :=
  let out := bullets.foldl (processPair inter x.1 x.2.2) (x.2.1, PairEffects.empty)
  ((x.1, out.1, x.2.2), out.2)

/-- The `check_bullet_damage` system of src/main.rs (lines 322-368): a nested
loop over the damageable query (id, component, translation token) and the
bullet query (id, component), driven by the intersection oracle. Each
damageable is processed independently against the full bullet snapshot; the
result is the post-tick damageable query together with all deferred commands
and events in emission order. -/
def check_bullet_damage (inter : Nat → Nat → Bool)
    (damageables : List (Nat × Damageable × Nat)) (bullets : List (Nat × Bullet)) :
    List (Nat × Damageable × Nat) × PairEffects :=
  let results := damageables.map (damageOne inter bullets)
  (results.map Prod.fst,
   (results.map Prod.snd).foldl PairEffects.append PairEffects.empty)

/-- Canonical enemy bullet as created by `spawn_bullet` in src/combat.rs with
`is_player_bullet = false`: direction flag false, speed 7.5, damage 1. -/
def enemyBullet : Bullet := ⟨false, false, 15/2, 1⟩

/-- Canonical player bullet as created by `spawn_bullet` in src/combat.rs with
`is_player_bullet = true`. -/
def playerBullet : Bullet := ⟨true, true, 15/2, 1⟩

/-! Power-up lifecycle, src/plugins/powerups.rs. -/

/-- Powerup tiers from src/plugins/powerups.rs. -/
inductive Powerup
  | DoubleShot
  | TripleShot
deriving DecidableEq, Repr

/-- PowerupComponent from src/plugins/powerups.rs. -/
structure PowerupComponent where
  powerup : Powerup
  time_left : Rat
deriving DecidableEq, Repr

/-- Component attached to every pickup entity spawned by `spawn_powerups`
(src/plugins/powerups.rs, lines 73-78): DoubleShot with 5.0 seconds. Pickup
entities are excluded from the expiry system (its query has `With<Player>`),
so a pickup still carries this exact component when collected. -/
def spawnedPickup : PowerupComponent := ⟨Powerup.DoubleShot, 5⟩

/-- Per-pickup transition of the player powerup state performed by
`detect_powerup_collisions` (src/plugins/powerups.rs, lines 123-136):
with an active component, a DoubleShot is upgraded in place to TripleShot and
then, in either case, the pickup duration is added to the remaining time;
with no active component, the pickup component is inserted as is. -/
def apply_pickup (cur : Option PowerupComponent) (pick : PowerupComponent) :
    PowerupComponent :=
  match cur with
  | some c =>
      if c.powerup = Powerup.DoubleShot then
        ⟨Powerup.TripleShot, c.time_left + pick.time_left⟩
      else
        ⟨c.powerup, c.time_left + pick.time_left⟩
  | none => pick

/-- Numeric tier of an optional powerup, used to state monotonicity of the
upgrade chain None (0) to DoubleShot (1) to TripleShot (2). -/
def tier : Option Powerup → Nat
  | none => 0
  | some Powerup.DoubleShot => 1
  | some Powerup.TripleShot => 2

/-- The `spawn_powerups` system of src/plugins/powerups.rs (lines 58-110):
iterate the EntityDeath query in order; a player-faction death is skipped by
`continue` before anything else happens to it; for an enemy-faction death a
probability is drawn, a pickup carrying `spawnedPickup` is spawned at the death
position when the draw is below 0.1, and the death entity is despawned in
either case. Returns the death entities left alive and the spawned pickups;
the draw stream index advances once per enemy-faction death. -/
def spawn_powerups (rng : Nat → Rat) :
    Nat → List (Nat × EntityDeath) →
    List (Nat × EntityDeath) × List (PowerupComponent × Nat)
  | _, [] => ([], [])
  | i, d :: rest =>
      if d.2.is_player then
        let out := spawn_powerups rng i rest
        (d :: out.1, out.2)
      else
        let spawned := if rng i < 1/10 then [(spawnedPickup, d.2.position)] else []
        let out := spawn_powerups rng (i + 1) rest
        (out.1, spawned ++ out.2)

/-! Enemy wave state machine, src/plugins/enemy_wave_plugin.rs. -/

/-- Game states relevant to the simulation core. Modelled from the spec:
src/state.rs is not under src/; the spec describes a combat state (Game) and a
non-combat state (Menu) exposed by the game-state collaborator. -/
inductive GameState
  | Menu
  | Game
deriving DecidableEq, Repr

/-- Enemy ship kinds from src/plugins/enemy_wave_plugin.rs. -/
inductive EnemyType
  | Type1
  | Type2
  | Type3
deriving DecidableEq, Repr

/-- EnemyInstance from src/plugins/enemy_wave_plugin.rs: grid position,
ship kind, starting health. -/
structure EnemyInstance where
  position : Int × Int
  ship_type : EnemyType
  health : Nat
deriving DecidableEq, Repr

/-- Wave template from src/plugins/enemy_wave_plugin.rs. -/
structure Wave where
  enemies : List EnemyInstance
deriving DecidableEq, Repr

/-- Rust inclusive range `lo..=hi` over integers, as a list. -/
def rangeIncl (lo hi : Int) : List Int :=
  (List.range ((hi - lo).toNat + 1)).map (fun i => lo + (i : Int))

/-- Rust `(lo..=hi).step_by(2)`: every second element of the inclusive range. -/
def stepBy2 (lo hi : Int) : List Int :=
  (List.range ((hi - lo).toNat + 1)).filterMap
    (fun i => if i % 2 = 0 then some (lo + (i : Int)) else none)

/-- The wave catalog `get_waves` of src/plugins/enemy_wave_plugin.rs
(lines 339-364): wave 0 is columns -4..=4 step 2 by rows -1..=1 of Type1
health-2 enemies, wave 1 is columns -5..=5 step 2 by rows -2..=2 of Type2
health-2 enemies, in the push order of the nested loops. -/
def get_waves : List Wave :=
  let enemies0 := (stepBy2 (-4) 4).flatMap (fun col =>
    (rangeIncl (-1) 1).map (fun row => ⟨(col, row), EnemyType.Type1, 2⟩))
  let enemies1 := (stepBy2 (-5) 5).flatMap (fun col =>
    (rangeIncl (-2) 2).map (fun row => ⟨(col, row), EnemyType.Type2, 2⟩))
  [⟨enemies0⟩, ⟨enemies1⟩]

/-- Catalog lookup performed by `spawn_wave` (src/plugins/enemy_wave_plugin.rs,
lines 148-150): `waves.get(wave_id).unwrap()`. The `none` result models the
panic of the unchecked `unwrap`; on success the enemies of the wave are the
population spawned for the session. -/
def spawn_wave (wave_id : Nat) : Option (List EnemyInstance) :=
  (get_waves.get? wave_id).map Wave.enemies

/-- Session state threaded through the wave state machine: the
`EnemyAIState.current_wave` counter, the game state, the live enemy
population, plus instrumentation recording the NewWaveEvent payloads sent and
how many times the machine set the next state to Menu. -/
structure WaveSession where
  current_wave : Nat
  game_state : GameState
  enemies : List EnemyInstance
  new_wave_events : List Nat
  menu_transitions : Nat
deriving DecidableEq, Repr

/-- The `change_wave` system of src/plugins/enemy_wave_plugin.rs
(lines 273-297): return untouched while any enemy is alive; otherwise advance
`current_wave`, send a NewWaveEvent, and either transition the game state to
Menu (index at or past the catalog end) or spawn the indexed wave. `none`
models the `unwrap` panic propagated from `spawn_wave`. -/
def change_wave (s : WaveSession) : Option WaveSession :=
  if s.enemies.isEmpty then
    let cw := s.current_wave + 1
    let s1 : WaveSession :=
      { s with current_wave := cw, new_wave_events := s.new_wave_events ++ [cw] }
    if get_waves.length ≤ cw then
      some { s1 with game_state := GameState.Menu,
                     menu_transitions := s1.menu_transitions + 1 }
    else
      (spawn_wave cw).map (fun es => { s1 with enemies := es })
  else
    some s

/-- One scheduled run of `change_wave`: the system is registered under
`run_if(in_state(GameState::Game))`, so outside the Game state it does not
run at all. -/
def change_wave_tick (s : WaveSession) : Option WaveSession :=
  if s.game_state = GameState.Game then change_wave s else some s

/-- The `init_enemy_waves` system (src/plugins/enemy_wave_plugin.rs,
lines 93-103): on entering the Game state it sends a NewWaveEvent for the
current (default zero) wave and spawns wave 0. -/
def init_enemy_waves : Option WaveSession :=
  (spawn_wave 0).map (fun es =>
    { current_wave := 0, game_state := GameState.Game, enemies := es,
      new_wave_events := [0], menu_transitions := 0 })

/-- External wave clearing (bullets killing every enemy) followed by one
scheduled run of `change_wave`. -/
def clearAndTick (s : WaveSession) : Option WaveSession :=
  change_wave_tick { s with enemies := [] }

/-! Enemy update system, src/plugins/enemy_wave_plugin.rs. -/

/-- Constant ENEMY_COOLDOWN_RANGE_S of src/plugins/enemy_wave_plugin.rs. -/
def ENEMY_COOLDOWN_RANGE_S : Rat × Rat := (2, 3)

/-- Constant ENEMY_FIRE_PROBABILITY of src/plugins/enemy_wave_plugin.rs. -/
def ENEMY_FIRE_PROBABILITY : Rat := 1/2

/-- Constant ENEMY_MOVE_DURATION_S of src/plugins/enemy_wave_plugin.rs. -/
def ENEMY_MOVE_DURATION_S : Rat := 2

/-- Constant ENEMY_MOVE_VELOCITY of src/plugins/enemy_wave_plugin.rs. -/
def ENEMY_MOVE_VELOCITY : Rat := 3/4

/-- Rust `rng.gen_range(lo..=hi)` modelled from a unit draw `u`. -/
def gen_range (lo hi u : Rat) : Rat := lo + (hi - lo) * u

/-- Cooldown written at enemy spawn by `spawn_wave`
(src/plugins/enemy_wave_plugin.rs, lines 160-163): a draw from
ENEMY_COOLDOWN_RANGE_S. -/
def spawn_cooldown (u : Rat) : Rat :=
  gen_range ENEMY_COOLDOWN_RANGE_S.1 ENEMY_COOLDOWN_RANGE_S.2 u

/-- Enemy component. Modelled from the spec: src/enemy.rs is not under src/;
the spec and every use in src/plugins/enemy_wave_plugin.rs give it a single
`shot_cooldown_timer` scalar (the fire cooldown). -/
structure Enemy where
  shot_cooldown_timer : Rat
deriving DecidableEq, Repr

/-- A bullet spawn request issued by enemy fire (translation token of the
firing enemy, faction flag handed to `spawn_bullet`). -/
structure SpawnedBullet where
  position : Nat
  is_player_bullet : Bool
deriving DecidableEq, Repr

/-- One enemy entity as seen by `update_enemies`: the Enemy component, the x
component of its rapier Velocity, its translation token, and whether it still
carries the MoveToTarget formation component. -/
structure EnemyEnt where
  enemy : Enemy
  velx : Rat
  translation : Nat
  hasMoveToTarget : Bool
deriving DecidableEq, Repr

/-- EnemyAIState resource from src/plugins/enemy_wave_plugin.rs. -/
structure EnemyAIState where
  current_wave : Nat
  move_timer : Rat
  moving_left : Bool
deriving DecidableEq, Repr

/-- Default EnemyAIState (src/plugins/enemy_wave_plugin.rs, lines 328-336). -/
def EnemyAIState.default : EnemyAIState :=
  ⟨0, ENEMY_MOVE_DURATION_S / 2, true⟩

/-- Loop body of `update_enemies` (src/plugins/enemy_wave_plugin.rs,
lines 226-250) for one enemy: assign the shared patrol velocity, decrement the
fire cooldown by dt, and when it reaches zero or below draw a probability,
spawn an enemy-faction bullet at the current translation when the draw is
below ENEMY_FIRE_PROBABILITY, and reset the cooldown to a fresh draw from
ENEMY_COOLDOWN_RANGE_S. The accumulator carries the processed entities, the
bullet spawn requests, and the draw stream index. -/
def update_one (rng : Nat → Rat) (dt : Rat) (left : Bool)
    (acc : List EnemyEnt × List SpawnedBullet × Nat) (e : EnemyEnt) :
    List EnemyEnt × List SpawnedBullet × Nat :=
  let velx := if left then -ENEMY_MOVE_VELOCITY else ENEMY_MOVE_VELOCITY
  let cd := e.enemy.shot_cooldown_timer - dt
  if cd ≤ 0 then
    let newBullets :=
      if rng acc.2.2 < ENEMY_FIRE_PROBABILITY then [⟨e.translation, false⟩] else []
    let cd2 := spawn_cooldown (rng (acc.2.2 + 1))
    (acc.1 ++ [{ e with velx := velx, enemy := ⟨cd2⟩ }],
     acc.2.1 ++ newBullets, acc.2.2 + 2)
  else
    (acc.1 ++ [{ e with velx := velx, enemy := ⟨cd⟩ }], acc.2.1, acc.2.2)

/-- The `update_enemies` system of src/plugins/enemy_wave_plugin.rs
(lines 204-251). If any entity still carries MoveToTarget the system returns
at once and nothing below runs (the formation synchronization gate; the enemy
query itself also excludes MoveToTarget holders, and once the gate is open it
coincides with the full population). Otherwise the shared patrol timer is
decremented, the direction flag flipped when it expires, and every enemy is
processed by `update_one` under the updated flag. -/
def update_enemies (rng : Nat → Rat) (i : Nat) (dt : Rat) (ai : EnemyAIState)
    (ents : List EnemyEnt) : EnemyAIState × List EnemyEnt × List SpawnedBullet :=
  if ents.any (fun e => e.hasMoveToTarget) then
    (ai, ents, [])
  else
    let mt := ai.move_timer - dt
    let ai2 :=
      if mt ≤ 0 then
        { ai with moving_left := !ai.moving_left, move_timer := ENEMY_MOVE_DURATION_S }
      else
        { ai with move_timer := mt }
    let out := ents.foldl (update_one rng dt ai2.moving_left) ([], [], i)
    (ai2, out.1, out.2.1)

/-! Helper lemmas shared by several claims. -/

theorem checkedSubOrZero_nonneg (a d : Int) : 0 ≤ checkedSubOrZero a d := by
  unfold checkedSubOrZero
  split <;> omega

theorem checkedSubOrZero_eq_max (a d : Int) : checkedSubOrZero a d = max (a - d) 0 := by
  unfold checkedSubOrZero
  split <;> omega

theorem processPair_health_nonneg (inter : Nat → Nat → Bool) (did pos : Nat)
    (st : Damageable × PairEffects) (b : Nat × Bullet) (h : 0 ≤ st.1.health) :
    0 ≤ (processPair inter did pos st b).1.health := by
  unfold processPair
  split
  · dsimp only
    split
    · split
      · exact checkedSubOrZero_nonneg _ _
      · exact checkedSubOrZero_nonneg _ _
    · exact checkedSubOrZero_nonneg _ _
  · exact h

theorem foldl_processPair_health_nonneg (inter : Nat → Nat → Bool) (did pos : Nat)
    (bs : List (Nat × Bullet)) :
    ∀ st : Damageable × PairEffects, 0 ≤ st.1.health →
      0 ≤ (bs.foldl (processPair inter did pos) st).1.health := by
  induction bs with
  | nil => exact fun st h => h
  | cons b rest ih =>
      intro st h
      exact ih _ (processPair_health_nonneg inter did pos st b h)

/-! Claim C1. -/

/-- C1: the claim states that a same-faction (friendly-fire) pair is ignored
entirely, leaving health unchanged. Evaluating `check_bullet_damage` on a
player damageable with health 5 intersecting a player bullet of damage 1 shows
the health decremented to 4 — the source subtracts damage before the faction
check — while, as claimed, the bullet survives and no event or despawn is
emitted. This contradicts the comment in the source that the check prevents
self-damage, so the code, not the claim, is at fault. -/
theorem c1_friendly_fire_still_reduces_health :
    check_bullet_damage (fun _ _ => true) [(0, ⟨5, true⟩, 0)] [(1, playerBullet)]
      = ([(0, ⟨4, true⟩, 0)], PairEffects.empty) := by decide

/-! Claim C3. -/

/-- C3: health never goes negative. Every damage application stores
`checked_sub(damage).unwrap_or(0)`, which equals saturating subtraction
(floor at 0), so after a whole tick of `check_bullet_damage` every damageable
still has nonnegative health whenever it started nonnegative. -/
theorem c3_health_never_negative (inter : Nat → Nat → Bool)
    (ds : List (Nat × Damageable × Nat)) (bs : List (Nat × Bullet))
    (h : ∀ x ∈ ds, 0 ≤ x.2.1.health) :
    (∀ y ∈ (check_bullet_damage inter ds bs).1, 0 ≤ y.2.1.health) ∧
    (∀ a d : Int, checkedSubOrZero a d = max (a - d) 0) := by
  refine ⟨?_, checkedSubOrZero_eq_max⟩
  intro y hy
  simp only [check_bullet_damage, List.map_map, List.mem_map] at hy
  obtain ⟨x, hx, rfl⟩ := hy
  simpa [damageOne] using
    foldl_processPair_health_nonneg inter x.1 x.2.2 bs (x.2.1, PairEffects.empty) (h x hx)

/-- Witness for C3 at a concrete input: one enemy with health 3 hit by a
player bullet. -/
theorem c3_health_never_negative_witness :
    (∀ x ∈ [((0 : Nat), (⟨3, false⟩ : Damageable), (0 : Nat))], 0 ≤ x.2.1.health) ∧
    ((∀ y ∈ (check_bullet_damage (fun _ _ => true)
        [(0, ⟨3, false⟩, 0)] [(1, playerBullet)]).1, 0 ≤ y.2.1.health) ∧
     (∀ a d : Int, checkedSubOrZero a d = max (a - d) 0)) :=
  ⟨by decide,
   c3_health_never_negative (fun _ _ => true) [(0, ⟨3, false⟩, 0)] [(1, playerBullet)]
     (by decide)⟩

/-! Claim C2. -/

theorem PairEffects.empty_append (fx : PairEffects) :
    PairEffects.append PairEffects.empty fx = fx := by
  cases fx
  simp [PairEffects.append, PairEffects.empty]

/-- Number of pair deaths (and of damageable despawn commands) produced by a
run of n intersecting damage-1 cross-faction bullets against one damageable of
starting health h. -/
def deathCount (h n : Nat) : Nat := if h = 0 then n else n + 1 - h

theorem deathCount_nil (h : Nat) : deathCount h 0 = 0 := by
  unfold deathCount
  split <;> omega

theorem processPair_enemyBullet_step (bid h : Nat) (fx : PairEffects) :
    processPair (fun _ _ => true) 0 0 (⟨(h : Int), true⟩, fx) (bid, enemyBullet)
      = if h ≤ 1 then
          (⟨((h - 1 : Nat) : Int), true⟩,
           ⟨fx.bulletDespawns ++ [bid], fx.entityDespawns ++ [0],
            fx.deaths ++ [⟨0, true⟩], fx.shakes ++ [⟨1⟩], fx.hits ++ [⟨0, true⟩]⟩)
        else
          (⟨((h - 1 : Nat) : Int), true⟩,
           ⟨fx.bulletDespawns ++ [bid], fx.entityDespawns, fx.deaths,
            fx.shakes ++ [⟨1/2⟩], fx.hits ++ [⟨0, false⟩]⟩) := by
  have hsub : checkedSubOrZero ((h : Int)) 1 = ((h - 1 : Nat) : Int) := by
    unfold checkedSubOrZero
    split <;> omega
  rcases le_or_lt h 1 with hle | hgt
  · rw [if_pos hle]
    have hz : ((h - 1 : Nat) : Int) = 0 := by omega
    simp [processPair, hsub, hz, enemyBullet]
  · rw [if_neg (by omega)]
    have hz : ¬(((h - 1 : Nat) : Int) = 0) := by omega
    simp [processPair, hsub, hz, enemyBullet]

theorem foldl_enemyBullet_counts (bs : List (Nat × Bullet)) :
    ∀ (h : Nat) (fx : PairEffects), (∀ b ∈ bs, b.2 = enemyBullet) →
      ((bs.foldl (processPair (fun _ _ => true) 0 0)
          (⟨(h : Int), true⟩, fx)).2.deaths.length
        = fx.deaths.length + deathCount h bs.length) ∧
      ((bs.foldl (processPair (fun _ _ => true) 0 0)
          (⟨(h : Int), true⟩, fx)).2.entityDespawns.length
        = fx.entityDespawns.length + deathCount h bs.length) := by
  induction bs with
  | nil =>
      intro h fx _
      simp [deathCount_nil]
  | cons b rest ih =>
      intro h fx hb
      have hb2 : b = (b.1, enemyBullet) := by
        have := hb b (List.mem_cons_self b rest)
        cases b
        simpa using this
      have hrest : ∀ x ∈ rest, x.2 = enemyBullet :=
        fun x hx => hb x (List.mem_cons_of_mem b hx)
      rw [List.foldl_cons, hb2, processPair_enemyBullet_step]
      rcases le_or_lt h 1 with hle | hgt
      · rw [if_pos hle]
        have hmain := ih (h - 1) ⟨fx.bulletDespawns ++ [b.1], fx.entityDespawns ++ [0],
          fx.deaths ++ [⟨0, true⟩], fx.shakes ++ [⟨1⟩], fx.hits ++ [⟨0, true⟩]⟩ hrest
        constructor
        · rw [hmain.1]
          simp only [List.length_cons, List.length_append, List.length_singleton,
            List.length_nil, deathCount]
          split_ifs <;> omega
        · rw [hmain.2]
          simp only [List.length_cons, List.length_append, List.length_singleton,
            List.length_nil, deathCount]
          split_ifs <;> omega
      · rw [if_neg (by omega)]
        have hmain := ih (h - 1) ⟨fx.bulletDespawns ++ [b.1], fx.entityDespawns,
          fx.deaths, fx.shakes ++ [⟨1/2⟩], fx.hits ++ [⟨0, false⟩]⟩ hrest
        constructor
        · rw [hmain.1]
          simp only [List.length_cons, deathCount]
          split_ifs <;> omega
        · rw [hmain.2]
          simp only [List.length_cons, deathCount]
          split_ifs <;> omega

/-- C2 counterexample: a player damageable with health 1 intersected by two
enemy bullets of damage 1 in the same tick. The claim says exactly one
EntityDeath and one despawn; the code re-processes the dead entity for the
second pair and emits a second EntityDeath and a second despawn command. -/
theorem c2_two_lethal_bullets_two_deaths :
    ((check_bullet_damage (fun _ _ => true) [(0, ⟨1, true⟩, 7)]
        [(1, enemyBullet), (2, enemyBullet)]).2.deaths
      = [⟨7, true⟩, ⟨7, true⟩]) ∧
    ((check_bullet_damage (fun _ _ => true) [(0, ⟨1, true⟩, 7)]
        [(1, enemyBullet), (2, enemyBullet)]).2.entityDespawns = [0, 0]) := by
  decide

/-- C2 amended: once a damageable reaches 0 health, later pairs referencing it
in the same tick are re-processed, not skipped: with starting health h ≥ 1 and
n intersecting cross-faction damage-1 bullets, the tick emits n + 1 - h
(truncated at 0) EntityDeath events and issues the same number of despawn
commands for the damageable, rather than at most one of each. -/
theorem c2_amended_death_counts (h n : Nat) (hh : 1 ≤ h) :
    ((check_bullet_damage (fun _ _ => true) [(0, ⟨(h : Int), true⟩, 0)]
        ((List.range n).map (fun i => (i + 1, enemyBullet)))).2.deaths.length
      = n + 1 - h) ∧
    ((check_bullet_damage (fun _ _ => true) [(0, ⟨(h : Int), true⟩, 0)]
        ((List.range n).map (fun i => (i + 1, enemyBullet)))).2.entityDespawns.length
      = n + 1 - h) := by
  have hb : ∀ b ∈ (List.range n).map (fun i => (i + 1, enemyBullet)),
      b.2 = enemyBullet := by simp
  have main := foldl_enemyBullet_counts _ h PairEffects.empty hb
  have hdc : deathCount h ((List.range n).map (fun i => (i + 1, enemyBullet))).length
      = n + 1 - h := by
    rw [List.length_map, List.length_range]
    unfold deathCount
    rw [if_neg (by omega)]
  simp only [check_bullet_damage, damageOne, List.map_cons, List.map_nil,
    List.foldl_cons, List.foldl_nil, PairEffects.empty_append]
  rw [hdc] at main
  simpa [PairEffects.empty] using main

/-- Witness for the amended C2 at h = 1, n = 2. -/
theorem c2_amended_death_counts_witness :
    1 ≤ 1 ∧
    (((check_bullet_damage (fun _ _ => true) [(0, ⟨((1 : Nat) : Int), true⟩, 0)]
        ((List.range 2).map (fun i => (i + 1, enemyBullet)))).2.deaths.length
      = 2 + 1 - 1) ∧
    ((check_bullet_damage (fun _ _ => true) [(0, ⟨((1 : Nat) : Int), true⟩, 0)]
        ((List.range 2).map (fun i => (i + 1, enemyBullet)))).2.entityDespawns.length
      = 2 + 1 - 1)) :=
  ⟨le_refl 1, c2_amended_death_counts 1 2 (le_refl 1)⟩

/-! Claims C4, C5, C10: the wave state machine. -/

theorem spawn_wave_isSome {i : Nat} (hi : i < get_waves.length) :
    (spawn_wave i).isSome = true := by
  unfold spawn_wave
  rw [List.get?_eq_get hi]
  rfl

/-- C4: wave advancement is population-driven. While any enemy is alive a
scheduled run of `change_wave` leaves the session untouched (no index change,
no spawn, no event); on a run with zero live enemies the index advances by
exactly one and, when the new index is inside the catalog, exactly that wave
of the catalog becomes the new population. -/
theorem c4_wave_advance_population_driven (s : WaveSession)
    (hg : s.game_state = GameState.Game) :
    (s.enemies ≠ [] → change_wave_tick s = some s) ∧
    (s.enemies = [] → ∃ s2,
      change_wave_tick s = some s2 ∧
      s2.current_wave = s.current_wave + 1 ∧
      (s.current_wave + 1 < get_waves.length →
        spawn_wave (s.current_wave + 1) = some s2.enemies)) := by
  obtain ⟨cw, gs, en, ev, mt⟩ := s
  simp only at hg
  subst hg
  constructor
  · intro hne
    have he : List.isEmpty en = false := by
      cases en with
      | nil => simp at hne
      | cons a l => rfl
    simp [change_wave_tick, change_wave, he]
  · intro he
    simp only at he
    subst he
    by_cases hlen : get_waves.length ≤ cw + 1
    · refine ⟨⟨cw + 1, GameState.Menu, [], ev ++ [cw + 1], mt + 1⟩, ?_, rfl, ?_⟩
      · simp [change_wave_tick, change_wave, hlen]
      · intro hlt
        simp only at hlt
        omega
    · have hi : cw + 1 < get_waves.length := by omega
      obtain ⟨es, hes⟩ := Option.isSome_iff_exists.mp (spawn_wave_isSome hi)
      refine ⟨⟨cw + 1, GameState.Game, es, ev ++ [cw + 1], mt⟩, ?_, rfl, ?_⟩
      · simp [change_wave_tick, change_wave, hlen, hes]
      · intro _
        simpa using hes

/-- Witness for C4: a session in the Game state holding the first wave.-/
theorem c4_wave_advance_population_driven_witness :
    ((⟨0, GameState.Game, [⟨(0, 0), EnemyType.Type1, 2⟩], [0], 0⟩ : WaveSession).game_state
        = GameState.Game) ∧
    (((⟨0, GameState.Game, [⟨(0, 0), EnemyType.Type1, 2⟩], [0], 0⟩ : WaveSession).enemies ≠ [] →
        change_wave_tick ⟨0, GameState.Game, [⟨(0, 0), EnemyType.Type1, 2⟩], [0], 0⟩
          = some ⟨0, GameState.Game, [⟨(0, 0), EnemyType.Type1, 2⟩], [0], 0⟩) ∧
     ((⟨0, GameState.Game, [⟨(0, 0), EnemyType.Type1, 2⟩], [0], 0⟩ : WaveSession).enemies = [] →
        ∃ s2, change_wave_tick ⟨0, GameState.Game, [⟨(0, 0), EnemyType.Type1, 2⟩], [0], 0⟩
            = some s2 ∧
          s2.current_wave = (⟨0, GameState.Game, [⟨(0, 0), EnemyType.Type1, 2⟩], [0], 0⟩
            : WaveSession).current_wave + 1 ∧
          ((⟨0, GameState.Game, [⟨(0, 0), EnemyType.Type1, 2⟩], [0], 0⟩
              : WaveSession).current_wave + 1 < get_waves.length →
            spawn_wave ((⟨0, GameState.Game, [⟨(0, 0), EnemyType.Type1, 2⟩], [0], 0⟩
              : WaveSession).current_wave + 1) = some s2.enemies))) :=
  ⟨rfl, c4_wave_advance_population_driven
    ⟨0, GameState.Game, [⟨(0, 0), EnemyType.Type1, 2⟩], [0], 0⟩ rfl⟩

/-- C5: advancing past the catalog end is terminal success. A zero-population
run whose advanced index reaches the catalog length sets the game state to
Menu (counted once), spawns nothing, and because `change_wave` is scheduled
under `run_if(in_state(Game))` every later run leaves the session untouched.
Concretely, on the 2-wave catalog of the source, clearing both waves in
sequence yields exactly one Menu transition, zero live enemies, and a further
run changes neither count. -/
theorem c5_exhausted_catalog_terminal (s : WaveSession)
    (h1 : s.game_state = GameState.Game) (h2 : s.enemies = [])
    (h3 : get_waves.length ≤ s.current_wave + 1) :
    (∃ s2, change_wave_tick s = some s2 ∧ s2.game_state = GameState.Menu ∧
      s2.menu_transitions = s.menu_transitions + 1 ∧ s2.enemies = [] ∧
      change_wave_tick s2 = some s2) ∧
    ((init_enemy_waves.bind clearAndTick).bind clearAndTick).map
        (fun t => (t.game_state, t.menu_transitions, t.enemies.length,
          (change_wave_tick t).map (fun u => (u.menu_transitions, u.enemies.length))))
      = some (GameState.Menu, 1, 0, some (1, 0)) := by
  constructor
  · obtain ⟨cw, gs, en, ev, mt⟩ := s
    simp only at h1 h2 h3
    subst h1
    subst h2
    refine ⟨⟨cw + 1, GameState.Menu, [], ev ++ [cw + 1], mt + 1⟩, ?_, rfl, rfl, rfl, rfl⟩
    simp [change_wave_tick, change_wave, h3]
  · decide

/-- Witness for C5: a Game session with empty population at the last index. -/
theorem c5_exhausted_catalog_terminal_witness :
    ((⟨1, GameState.Game, [], [], 0⟩ : WaveSession).game_state = GameState.Game ∧
     (⟨1, GameState.Game, [], [], 0⟩ : WaveSession).enemies = [] ∧
     get_waves.length ≤ (⟨1, GameState.Game, [], [], 0⟩ : WaveSession).current_wave + 1) ∧
    ((∃ s2, change_wave_tick ⟨1, GameState.Game, [], [], 0⟩ = some s2 ∧
        s2.game_state = GameState.Menu ∧
        s2.menu_transitions = (⟨1, GameState.Game, [], [], 0⟩
          : WaveSession).menu_transitions + 1 ∧
        s2.enemies = [] ∧ change_wave_tick s2 = some s2) ∧
     ((init_enemy_waves.bind clearAndTick).bind clearAndTick).map
        (fun t => (t.game_state, t.menu_transitions, t.enemies.length,
          (change_wave_tick t).map (fun u => (u.menu_transitions, u.enemies.length))))
      = some (GameState.Menu, 1, 0, some (1, 0))) :=
  ⟨⟨rfl, rfl, by decide⟩,
   c5_exhausted_catalog_terminal ⟨1, GameState.Game, [], [], 0⟩ rfl rfl (by decide)⟩

/-- C10: the unchecked catalog lookup of `spawn_wave` cannot panic. The lookup
succeeds for every index below the catalog length; the initial spawn uses
index 0 on the 2-wave catalog, and `change_wave` transitions to Menu and
returns before spawning whenever the advanced index reaches the length, so
every call site stays inside the catalog and the `none` (panic) branch is
unreachable. -/
theorem c10_wave_lookup_never_panics (i : Nat) (hi : i < get_waves.length) :
    (spawn_wave i).isSome = true ∧
    get_waves.length = 2 ∧
    init_enemy_waves.isSome = true ∧
    (∀ s, (change_wave s).isSome = true) := by
  refine ⟨spawn_wave_isSome hi, by decide, by decide, ?_⟩
  intro s
  unfold change_wave
  split
  · dsimp only
    split
    · rfl
    · obtain ⟨es, hes⟩ := Option.isSome_iff_exists.mp
        (spawn_wave_isSome (i := s.current_wave + 1) (by omega))
      rw [hes]
      rfl
  · rfl

/-- Witness for C10 at index 0. -/
theorem c10_wave_lookup_never_panics_witness :
    0 < get_waves.length ∧
    ((spawn_wave 0).isSome = true ∧
     get_waves.length = 2 ∧
     init_enemy_waves.isSome = true ∧
     (∀ s, (change_wave s).isSome = true)) :=
  ⟨by decide, c10_wave_lookup_never_panics 0 (by decide)⟩

/-! Claim C6: the powerup upgrade chain. -/

/-- C6: the per-pickup transition is monotonic and capped. With no active
powerup the pickup component is attached as spawned (DoubleShot, 5.0 seconds);
an active DoubleShot upgrades to TripleShot; an active TripleShot stays
TripleShot; in both active cases the pickup duration is added to the
remaining time; the tier never regresses and never exceeds TripleShot. -/
theorem c6_powerup_chain_monotonic_capped :
    apply_pickup none spawnedPickup = ⟨Powerup.DoubleShot, 5⟩ ∧
    (∀ p, apply_pickup none p = p) ∧
    (∀ t p, apply_pickup (some ⟨Powerup.DoubleShot, t⟩) p
        = ⟨Powerup.TripleShot, t + p.time_left⟩) ∧
    (∀ t p, apply_pickup (some ⟨Powerup.TripleShot, t⟩) p
        = ⟨Powerup.TripleShot, t + p.time_left⟩) ∧
    (∀ cur p, tier (cur.map PowerupComponent.powerup)
        ≤ tier (some (apply_pickup cur p).powerup)) ∧
    (∀ cur p, tier (some (apply_pickup cur p).powerup) ≤ 2) := by
  refine ⟨rfl, fun p => rfl, fun t p => rfl, fun t p => ?_, fun cur p => ?_,
    fun cur p => ?_⟩
  · simp [apply_pickup]
  · cases cur with
    | none => exact Nat.zero_le _
    | some c =>
        obtain ⟨pw, tl⟩ := c
        cases pw <;> simp [apply_pickup, tier]
  · cases cur with
    | none =>
        cases hp : p.powerup <;> simp [apply_pickup, tier, hp]
    | some c =>
        obtain ⟨pw, tl⟩ := c
        cases pw <;> simp [apply_pickup, tier]

/-! Claim C9: death notifications and powerup spawning. -/

theorem spawn_powerups_fst (rng : Nat → Rat) :
    ∀ (i : Nat) (deaths : List (Nat × EntityDeath)),
      (spawn_powerups rng i deaths).1 = deaths.filter (fun d => d.2.is_player) := by
  intro i deaths
  induction deaths generalizing i with
  | nil => rfl
  | cons d rest ih =>
      cases hd : d.2.is_player with
      | false => simp [spawn_powerups, hd, ih]
      | true => simp [spawn_powerups, hd, ih]

/-- C9: `spawn_powerups` despawns a death notification exactly when the death
is enemy-faction. The surviving death entities are precisely the
player-faction ones, and running the system again on the survivors removes
nothing: player-faction deaths are re-skipped on every later tick. -/
theorem c9_death_consumed_iff_enemy (rng : Nat → Rat) (i : Nat)
    (deaths : List (Nat × EntityDeath)) :
    ((spawn_powerups rng i deaths).1 = deaths.filter (fun d => d.2.is_player)) ∧
    (∀ rng2 j, (spawn_powerups rng2 j (spawn_powerups rng i deaths).1).1
        = (spawn_powerups rng i deaths).1) := by
  refine ⟨spawn_powerups_fst rng i deaths, fun rng2 j => ?_⟩
  rw [spawn_powerups_fst rng i deaths, spawn_powerups_fst rng2 j,
    List.filter_filter]
  simp

/-! Claims C7 and C8: the enemy update system. -/

/-- C7 counterexample: a tick in which one enemy still holds MoveToTarget. The
other enemy has cooldown 1 and dt is 1/2, yet `update_enemies` returns every
enemy unchanged — no cooldown is decremented on such a tick, against the
claim that the decrement happens on every tick. -/
theorem c7_cooldown_frozen_during_formation :
    (update_enemies (fun _ => 0) 0 (1/2) ⟨0, 1, true⟩
        [⟨⟨1⟩, 0, 0, true⟩, ⟨⟨1⟩, 0, 1, false⟩]).2.1
      = [⟨⟨1⟩, 0, 0, true⟩, ⟨⟨1⟩, 0, 1, false⟩] := by decide

/-- C7 amended: on every tick on which the formation gate is open (no enemy
holds MoveToTarget), an enemy has its cooldown decremented by dt; when the
result is at or below zero a probability is drawn and an enemy-faction bullet
at the enemy translation is spawned exactly when the draw is below
ENEMY_FIRE_PROBABILITY, and in either case the cooldown is reset to a fresh
draw through `spawn_cooldown`, the same ENEMY_COOLDOWN_RANGE_S draw used at
spawn, whose value lies in the range 2 to 3. -/
theorem c7_amended_fire_control (rng : Nat → Rat) (i : Nat) (dt : Rat)
    (ai : EnemyAIState) (e : EnemyEnt) (hmt : e.hasMoveToTarget = false)
    (h0 : 0 ≤ rng (i + 1)) (h1 : rng (i + 1) ≤ 1) :
    (e.enemy.shot_cooldown_timer - dt ≤ 0 →
      ((update_enemies rng i dt ai [e]).2.1.map
          (fun x => x.enemy.shot_cooldown_timer) = [spawn_cooldown (rng (i + 1))]) ∧
      (ENEMY_COOLDOWN_RANGE_S.1 ≤ spawn_cooldown (rng (i + 1)) ∧
        spawn_cooldown (rng (i + 1)) ≤ ENEMY_COOLDOWN_RANGE_S.2) ∧
      ((update_enemies rng i dt ai [e]).2.2
        = if rng i < ENEMY_FIRE_PROBABILITY then [⟨e.translation, false⟩] else [])) ∧
    (0 < e.enemy.shot_cooldown_timer - dt →
      ((update_enemies rng i dt ai [e]).2.1.map
          (fun x => x.enemy.shot_cooldown_timer) = [e.enemy.shot_cooldown_timer - dt]) ∧
      (update_enemies rng i dt ai [e]).2.2 = []) := by
  have hgate : ([e].any (fun x => x.hasMoveToTarget)) = false := by simp [hmt]
  constructor
  · intro hcd
    simp only [update_enemies, hgate, Bool.false_eq_true, if_false,
      List.foldl_cons, List.foldl_nil]
    unfold update_one
    dsimp only
    rw [if_pos hcd]
    refine ⟨by simp, ?_, by simp⟩
    unfold spawn_cooldown gen_range ENEMY_COOLDOWN_RANGE_S
    constructor <;> simp <;> linarith
  · intro hcd
    simp only [update_enemies, hgate, Bool.false_eq_true, if_false,
      List.foldl_cons, List.foldl_nil]
    unfold update_one
    dsimp only
    rw [if_neg (by linarith)]
    exact ⟨by simp, by simp⟩

/-- Witness for the amended C7: a single enemy with cooldown 1, dt 1, and a
constant draw stream at 1/2. -/
theorem c7_amended_fire_control_witness :
    ((⟨⟨1⟩, 0, 5, false⟩ : EnemyEnt).hasMoveToTarget = false ∧
     0 ≤ (fun _ : Nat => (1 : Rat)/2) (0 + 1) ∧
     (fun _ : Nat => (1 : Rat)/2) (0 + 1) ≤ 1) ∧
    (((⟨⟨1⟩, 0, 5, false⟩ : EnemyEnt).enemy.shot_cooldown_timer - 1 ≤ 0 →
      ((update_enemies (fun _ => (1 : Rat)/2) 0 1 ⟨0, 1, true⟩
          [⟨⟨1⟩, 0, 5, false⟩]).2.1.map (fun x => x.enemy.shot_cooldown_timer)
        = [spawn_cooldown ((fun _ : Nat => (1 : Rat)/2) (0 + 1))]) ∧
      (ENEMY_COOLDOWN_RANGE_S.1 ≤ spawn_cooldown ((fun _ : Nat => (1 : Rat)/2) (0 + 1)) ∧
        spawn_cooldown ((fun _ : Nat => (1 : Rat)/2) (0 + 1)) ≤ ENEMY_COOLDOWN_RANGE_S.2) ∧
      ((update_enemies (fun _ => (1 : Rat)/2) 0 1 ⟨0, 1, true⟩
          [⟨⟨1⟩, 0, 5, false⟩]).2.2
        = if (fun _ : Nat => (1 : Rat)/2) 0 < ENEMY_FIRE_PROBABILITY
          then [⟨(⟨⟨1⟩, 0, 5, false⟩ : EnemyEnt).translation, false⟩] else [])) ∧
    (0 < (⟨⟨1⟩, 0, 5, false⟩ : EnemyEnt).enemy.shot_cooldown_timer - 1 →
      ((update_enemies (fun _ => (1 : Rat)/2) 0 1 ⟨0, 1, true⟩
          [⟨⟨1⟩, 0, 5, false⟩]).2.1.map (fun x => x.enemy.shot_cooldown_timer)
        = [(⟨⟨1⟩, 0, 5, false⟩ : EnemyEnt).enemy.shot_cooldown_timer - 1]) ∧
      (update_enemies (fun _ => (1 : Rat)/2) 0 1 ⟨0, 1, true⟩
          [⟨⟨1⟩, 0, 5, false⟩]).2.2 = [])) :=
  ⟨⟨rfl, by norm_num, by norm_num⟩,
   c7_amended_fire_control (fun _ => (1 : Rat)/2) 0 1 ⟨0, 1, true⟩
     ⟨⟨1⟩, 0, 5, false⟩ rfl (by norm_num) (by norm_num)⟩

theorem foldl_update_one_velx (rng : Nat → Rat) (dt : Rat) (left : Bool)
    (l : List EnemyEnt) :
    ∀ acc : List EnemyEnt × List SpawnedBullet × Nat,
      (∀ x ∈ acc.1, x.velx = if left then -ENEMY_MOVE_VELOCITY else ENEMY_MOVE_VELOCITY) →
      ∀ x ∈ (l.foldl (update_one rng dt left) acc).1,
        x.velx = if left then -ENEMY_MOVE_VELOCITY else ENEMY_MOVE_VELOCITY := by
  induction l with
  | nil => exact fun acc h => h
  | cons e rest ih =>
      intro acc h
      rw [List.foldl_cons]
      apply ih
      intro x hx
      unfold update_one at hx
      dsimp only at hx
      split at hx
      · rcases List.mem_append.mp hx with hx1 | hx2
        · exact h x hx1
        · rw [List.mem_singleton.mp hx2]
      · rcases List.mem_append.mp hx with hx1 | hx2
        · exact h x hx1
        · rw [List.mem_singleton.mp hx2]

/-- C8: the formation gate and patrol lockstep. While any enemy still holds
MoveToTarget, `update_enemies` changes nothing and spawns nothing (global
suppression of patrol movement); once no enemy holds one, every enemy receives
the same horizontal velocity, of fixed magnitude ENEMY_MOVE_VELOCITY and with
the sign given by the shared direction flag of the updated AI state. -/
theorem c8_formation_gate_and_lockstep (rng : Nat → Rat) (i : Nat) (dt : Rat)
    (ai : EnemyAIState) (ents : List EnemyEnt) :
    (ents.any (fun e => e.hasMoveToTarget) = true →
      update_enemies rng i dt ai ents = (ai, ents, [])) ∧
    (ents.any (fun e => e.hasMoveToTarget) = false →
      ∀ x ∈ (update_enemies rng i dt ai ents).2.1,
        x.velx = if (update_enemies rng i dt ai ents).1.moving_left
          then -ENEMY_MOVE_VELOCITY else ENEMY_MOVE_VELOCITY) := by
  constructor
  · intro hgate
    simp [update_enemies, hgate]
  · intro hgate
    simp only [update_enemies, hgate, Bool.false_eq_true, if_false]
    exact foldl_update_one_velx rng dt _ ents ([], [], i) (by simp)

/-- Witness for C8: one enemy that has finished forming up. -/
theorem c8_formation_gate_and_lockstep_witness :
    (([(⟨⟨5⟩, 0, 0, false⟩ : EnemyEnt)].any (fun e => e.hasMoveToTarget)) = false) ∧
    (∀ x ∈ (update_enemies (fun _ => 0) 0 1 ⟨0, 1, true⟩
        [⟨⟨5⟩, 0, 0, false⟩]).2.1,
      x.velx = if (update_enemies (fun _ => 0) 0 1 ⟨0, 1, true⟩
          [⟨⟨5⟩, 0, 0, false⟩]).1.moving_left
        then -ENEMY_MOVE_VELOCITY else ENEMY_MOVE_VELOCITY) :=
  ⟨by decide,
   (c8_formation_gate_and_lockstep (fun _ => 0) 0 1 ⟨0, 1, true⟩
     [⟨⟨5⟩, 0, 0, false⟩]).2 (by decide)⟩

end Shooter
